import Mathlib

/-!
# Expense Manager — verification of the voucher/expense core

Shallow embedding of the voucher/expense aggregate logic of the
Expense_Manager_App repository.

Sources embedded here:
* `src/server/routes.ts` — the route implementation registered by
  `src/server/index.ts` (`registerRoutes`): voucher create/delete, expense
  create with inline total recompute, voucher list read model.
* `src/unnamed/part_005` — the serverless variant of the routes; it adds
  `PATCH /api/vouchers/:id` and `DELETE /api/expenses/:id` (both absent from
  `src/server/routes.ts`) and is otherwise identical on the shared endpoints.
* `src/unnamed/part_003` — `SupabaseStorage` (`getVoucherById`,
  `updateVoucherTotal`); this storage layer is not called by the live routes,
  which talk to the store directly.
* `src/unnamed/part_000` — the SQL schema (the one the claims cite): column
  type `decimal(10,2)` for amounts/totals, `NOT NULL` constraints, the
  `transport_type` CHECK enum `bus,train,cab,auto,fuel,flight,parking,other`
  (no `food`), FK `expenses.voucher_id → vouchers.id ON DELETE CASCADE`, and no
  triggers.  (`src/scripts/setup-database.sql` is a divergent schema variant —
  it adds `food` to the enum and an `updated_at` trigger — but it is not the
  schema the claims cite, and it contradicts the drizzle schema in
  `src/setup-database.js` and the client enum, both of which omit `food`.)
* `src/client/src/components/add-expense-modal.tsx` and
  `create-voucher-modal.tsx` — the client-side fuel-amount derivation and the
  client-side date-range validation.

Modelling conventions:
* Timestamps and dates are `Int` (milliseconds since epoch, a parsed JS
  `Date`); a request field that may be absent or unparseable is an `Option`.
* Monetary values are `Int`, denominated in hundredths of the currency unit
  ("cents"): a `numeric(10,2)` column holds exactly the scale-2 fixed-point
  grid, so its values are in bijection with integer cent counts, and SQL
  `numeric` arithmetic on them is exact integer arithmetic on cents.  The
  route handlers actually sum via `parseFloat` over IEEE-754 doubles, but for
  cent-grid values of column-representable magnitude the double sum is within
  far less than half a cent of the exact sum, and the `numeric(10,2)` column
  rounds the written total back onto the grid, so the stored outcome equals
  the exact cent sum; the summation is therefore modelled exactly.
* Supabase `.single()` yields an error (`PGRST116`) when zero rows match, so
  the `if (!voucher) return 404` branches after a `.single()` are dead code:
  a missing row takes the `fetchError` branch.  The handlers are modelled
  accordingly, on the error branch the source actually takes.
* Store-failure behaviour: the two recompute steps of an expense mutation
  (re-read of the expense rows, write of the new total) are separate
  non-transactional calls whose failures the handlers ignore (a read failure
  skips the write; the write's error object is discarded).  `StoreFaults`
  injects these two failures.
-/

namespace ExpenseManager

/-- Voucher status per the CHECK constraint in `src/unnamed/part_000`:
`status varchar CHECK (status IN ('draft', 'submitted'))`. -/
inductive VStatus where
  | draft
  | submitted
deriving DecidableEq, Repr

/-- A row of the `vouchers` table (`src/unnamed/part_000`, lines 21-33).
`total_amount` is the `numeric(10,2)` column, in cents. -/
structure Voucher where
  id : String
  user_id : String
  name : String
  department : String
  description : Option String
  start_date : Int
  end_date : Int
  status : VStatus
  total_amount : Int
  created_at : Int
  updated_at : Int
deriving DecidableEq, Repr

/-- A row of the `expenses` table (`src/unnamed/part_000`, lines 36-46).
`amount` is the `numeric(10,2)` column, in cents. -/
structure Expense where
  id : String
  voucher_id : String
  description : String
  transport_type : String
  amount : Int
  distance : Option Int
  datetime : Int
  notes : Option String
  created_at : Int
deriving DecidableEq, Repr

/-- The relational store: the two tables the core touches, each in physical
(insertion) order. -/
structure Db where
  vouchers : List Voucher
  expenses : List Expense
deriving DecidableEq, Repr

/-- The `transport_type` CHECK enum of the cited schema
(`src/unnamed/part_000`, line 40).  Note `food` is absent. -/
def transportTypes : List String :=
  ["bus", "train", "cab", "auto", "fuel", "flight", "parking", "other"]

/-- The expenses currently linked to a voucher:
`.from("expenses").select(...).eq("voucher_id", voucherId)`. -/
def linkedExpenses (db : Db) (vid : String) : List Expense :=
  db.expenses.filter (fun e => e.voucher_id == vid)

/-- The route handlers' summation
`expenses.reduce((sum, expense) => sum + parseFloat(expense.amount || "0"), 0)`
(`src/server/routes.ts`, lines 625-628): a left fold adding the amounts,
starting from 0 (exact on cents; see the header note on `parseFloat`). -/
def sumAmounts (es : List Expense) : Int :=
  es.foldl (fun s e => s + e.amount) 0

/-- `.from("vouchers").update({ total_amount: totalAmount.toString() }).eq("id", voucherId)`
(`src/server/routes.ts`, lines 629-632): writes only `total_amount` — no
`updated_at` — on every voucher row matching the id. -/
def setVoucherTotalOnly (db : Db) (vid : String) (t : Int) : Db :=
  { db with
    vouchers := db.vouchers.map fun v =>
      if v.id == vid then { v with total_amount := t } else v }

/-- The total recompute inlined in the live route handlers
(`src/server/routes.ts`, lines 618-633; identically `src/unnamed/part_005`,
lines 644-659 and 722-737): re-read the voucher's expenses, sum, write only
the total back. -/
def routeRecomputeTotal (db : Db) (vid : String) : Db :=
  setVoucherTotalOnly db vid (sumAmounts (linkedExpenses db vid))

/-- `SupabaseStorage.updateVoucherTotal` (`src/unnamed/part_003`, lines
294-306): `select({ total: sum(expenses.amount) })` — SQL `SUM` over the
`numeric` column, exact decimal arithmetic, `NULL` coalesced to `"0"` — then
`.set({ total_amount: total, updated_at: new Date() })`. -/
def updateVoucherTotal (db : Db) (vid : String) (now : Int) : Db :=
  { db with
    vouchers := db.vouchers.map fun v =>
      if v.id == vid then
        { v with
          total_amount := sumAmounts (linkedExpenses db vid),
          updated_at := now }
      else v }

/-- HTTP outcome of a modelled endpoint. -/
inductive ApiStatus where
  | ok
  | badRequest
  | forbidden
  | notFound
  | serverError
  | unavailable
deriving DecidableEq, Repr

/-- Injected store failures for the two non-transactional recompute steps of
an expense mutation: the re-read of the expense rows, and the write of the
new total. -/
structure StoreFaults where
  recomputeReadFails : Bool
  recomputeWriteFails : Bool
deriving DecidableEq, Repr

/-- All store operations succeed. -/
def noFaults : StoreFaults := ⟨false, false⟩

/-- Request body of `POST /api/vouchers/:id/expenses`.  `none` models a field
that is absent or that the store cannot parse for its column type; `amount`
is in cents. -/
structure ExpenseInput where
  description : Option String
  transport_type : String
  amount : Option Int
  distance : Option Int
  datetime : Option Int
  notes : Option String
deriving DecidableEq, Repr

/-- Whether the store accepts the insert
(`.from("expenses").insert({...})`): the route itself validates nothing, so
the only gate is the schema of `src/unnamed/part_000` — the `transport_type`
CHECK enum and the `NOT NULL` columns `description`, `amount`, `datetime`. -/
def dbExpenseInsertOk (b : ExpenseInput) : Bool :=
  transportTypes.contains b.transport_type
    && b.description.isSome && b.amount.isSome && b.datetime.isSome

/-- The expense row the insert stores: the body fields verbatim; no
validation, no derivation of any kind applied to the client-supplied
amount. -/
def mkStoredExpense (vid : String) (b : ExpenseInput) (fid : String)
    (now : Int) : Expense :=
  { id := fid
    voucher_id := vid
    description := b.description.getD ""
    transport_type := b.transport_type
    amount := b.amount.getD 0
    distance := b.distance
    datetime := b.datetime.getD 0
    notes := b.notes
    created_at := now }

/-- `POST /api/vouchers/:id/expenses` (`src/server/routes.ts`, lines 530-641;
identically `src/unnamed/part_005`, lines 556-667).
Steps, in source order:
1. ownership fetch `.select("id").eq("id", voucherId).eq("user_id", authUser.id).single()`
   — zero rows yields `PGRST116`, which the handler maps to the 503
   "Database table not found" response (lines 574-593); the later
   `if (!voucher) return 404` is unreachable;
2. insert the body fields verbatim — a store rejection returns 500;
3. re-read the voucher's expenses; on read error the total update is
   SKIPPED and the handler continues;
4. write the summed total; the write's error is discarded;
5. respond 200 with the created expense.
No step consults `voucher.status`, and no client field is validated or
derived server-side. -/
def postVoucherExpense (db : Db) (uid vid : String) (b : ExpenseInput)
    (fid : String) (now : Int) (f : StoreFaults) : ApiStatus × Db :=
  match db.vouchers.find? (fun v => v.id == vid && v.user_id == uid) with
  | none => (ApiStatus.unavailable, db)
  | some _ =>
    if dbExpenseInsertOk b then
      let db1 : Db := { db with expenses := db.expenses ++ [mkStoredExpense vid b fid now] }
      if f.recomputeReadFails then (ApiStatus.ok, db1)
      else if f.recomputeWriteFails then (ApiStatus.ok, db1)
      else (ApiStatus.ok, routeRecomputeTotal db1 vid)
    else (ApiStatus.serverError, db)

/-- `DELETE /api/expenses/:id` (`src/unnamed/part_005`, lines 670-744).
Steps, in source order:
1. fetch `.select("voucher_id, vouchers!inner(user_id)").eq("id", expenseId).single()`
   — a missing expense (or a dangling parent, impossible under the FK) yields
   a fetch error, which returns 500 "Failed to fetch expense";
2. explicit ownership check: `if (expense.vouchers.user_id !== authUser.id)`
   returns 403 — Forbidden, not NotFound — for another user's expense;
3. delete the row;
4. re-read the remaining expenses; on read error the total update is SKIPPED;
5. write the summed total; the write's error is discarded;
6. respond 200 `{ success: true }`.
No step consults `voucher.status`. -/
def deleteExpenseRoute (db : Db) (uid eid : String) (f : StoreFaults) :
    ApiStatus × Db :=
  match db.expenses.find? (fun e => e.id == eid) with
  | none => (ApiStatus.serverError, db)
  | some e =>
    match db.vouchers.find? (fun v => v.id == e.voucher_id) with
    | none => (ApiStatus.serverError, db)
    | some v =>
      if v.user_id != uid then (ApiStatus.forbidden, db)
      else
        let db1 : Db := { db with expenses := db.expenses.filter (fun x => !(x.id == eid)) }
        if f.recomputeReadFails then (ApiStatus.ok, db1)
        else if f.recomputeWriteFails then (ApiStatus.ok, db1)
        else (ApiStatus.ok, routeRecomputeTotal db1 e.voucher_id)

/-- `DELETE /api/vouchers/:id` (`src/server/routes.ts`, lines 487-528;
identically `src/unnamed/part_005`, lines 513-554): ownership fetch with
`if (fetchError || !voucher) return 404` — a missing voucher and another
user's voucher fail identically with 404 — then delete; the FK
`ON DELETE CASCADE` removes the voucher's expenses. -/
def deleteVoucherRoute (db : Db) (uid vid : String) : ApiStatus × Db :=
  match db.vouchers.find? (fun v => v.id == vid && v.user_id == uid) with
  | none => (ApiStatus.notFound, db)
  | some _ =>
    (ApiStatus.ok,
      { vouchers := db.vouchers.filter (fun v => !(v.id == vid && v.user_id == uid)),
        expenses := db.expenses.filter (fun e => !(e.voucher_id == vid)) })

/-- The `updateData = req.body` of `PATCH /api/vouchers/:id`, restricted to
the one column the client mutation sends (`{ status: "submitted" }`,
`src/unnamed/part_009`, lines 78-85).  `none` means the field is absent from
the body. -/
structure VoucherPatch where
  status : Option VStatus
deriving DecidableEq, Repr

/-- `PATCH /api/vouchers/:id` (`src/unnamed/part_005`, lines 470-511):
`.update(updateData).eq("id", id).eq("user_id", authUser.id).select().single()`.
The body is applied verbatim to the owner's voucher — there is no
state-machine validation of the status transition, no `InvalidTransition`
failure anywhere in the repository, and no `updated_at` refresh.  A
`.single()` with zero matched rows errors, taking the 500 branch. -/
def patchVoucherRoute (db : Db) (uid vid : String) (p : VoucherPatch) :
    ApiStatus × Db :=
  match db.vouchers.find? (fun v => v.id == vid && v.user_id == uid) with
  | none => (ApiStatus.serverError, db)
  | some _ =>
    (ApiStatus.ok,
      { db with
        vouchers := db.vouchers.map fun v =>
          if v.id == vid && v.user_id == uid then
            { v with status := p.status.getD v.status }
          else v })

/-- Request body of `POST /api/vouchers` after JS date parsing: `none` for a
date that is absent or `NaN`; `""` for an absent name/department (JS
falsiness). -/
structure VoucherCreateBody where
  name : String
  department : String
  description : Option String
  start_date : Option Int
  end_date : Option Int
deriving DecidableEq, Repr

/-- `POST /api/vouchers` (`src/server/routes.ts`, lines 319-485; identically
`src/unnamed/part_005`, lines 300-467): missing fields → 400; unparseable
dates → 400; `if (startDate >= endDate)` → 400 "Invalid date range" — note
equality is REJECTED; otherwise insert with `status: "draft"`,
`total_amount: "0"`. -/
def postVoucherRoute (db : Db) (uid : String) (b : VoucherCreateBody)
    (fid : String) (now : Int) : ApiStatus × Db :=
  if b.name == "" || b.department == "" then (ApiStatus.badRequest, db)
  else
    match b.start_date, b.end_date with
    | some s, some e =>
      if s ≥ e then (ApiStatus.badRequest, db)
      else
        (ApiStatus.ok,
          { db with
            vouchers := db.vouchers ++
              [{ id := fid, user_id := uid, name := b.name,
                 department := b.department, description := b.description,
                 start_date := s, end_date := e, status := VStatus.draft,
                 total_amount := 0, created_at := now, updated_at := now }] })
    | _, _ => (ApiStatus.badRequest, db)

/-- The client-side date rule of the create-voucher form
(`src/client/src/components/create-voucher-modal.tsx`, lines 40-47):
`.refine((data) => end >= start)` — the CLIENT accepts equal dates. -/
def clientVoucherDatesOk (s e : Int) : Bool := e ≥ s

/-- The fuel rate 3.5 currency units per km (the constant of the client fuel
computation, `src/client/src/components/add-expense-modal.tsx`, line 100),
in cents per km; it appears nowhere in the server code. -/
def FUEL_RATE_CENTS : Int := 350

/-- The client-side fuel derivation (`add-expense-modal.tsx`, lines 98-105):
`cost = watchDistance * 3.5; form.setValue("amount", cost.toFixed(2))`.
For an integer km the double product is exact and `toFixed(2)` renders it
with two decimals, i.e. exactly `km * 350` cents. -/
def clientFuelAmount (km : Int) : Int := km * FUEL_RATE_CENTS

/-- The stored total of a voucher, by id (in cents). -/
def voucherTotal (db : Db) (vid : String) : Option Int :=
  (db.vouchers.find? (fun v => v.id == vid)).map (fun v => v.total_amount)

/-- The stored status of a voucher, by id. -/
def voucherStatus (db : Db) (vid : String) : Option VStatus :=
  (db.vouchers.find? (fun v => v.id == vid)).map (fun v => v.status)

/-- The stored `updated_at` of a voucher, by id. -/
def voucherUpdatedAt (db : Db) (vid : String) : Option Int :=
  (db.vouchers.find? (fun v => v.id == vid)).map (fun v => v.updated_at)

/-- Insert into a list kept sorted by a descending integer key: the model of
a SQL `ORDER BY key DESC`. -/
def insertDescBy {α : Type} (key : α → Int) (a : α) : List α → List α
  | [] => [a]
  | x :: xs => if key x ≤ key a then a :: x :: xs else x :: insertDescBy key a xs

/-- Sort by a descending integer key (insertion sort): the model of a SQL
`ORDER BY key DESC`. -/
def sortDescBy {α : Type} (key : α → Int) : List α → List α
  | [] => []
  | x :: xs => insertDescBy key x (sortDescBy key xs)

/-- Descending sortedness by an integer key. -/
def SortedDescBy {α : Type} (key : α → Int) (l : List α) : Prop :=
  l.Pairwise (fun a b => key b ≤ key a)

instance {α : Type} (key : α → Int) (l : List α) :
    Decidable (SortedDescBy key l) :=
  List.instDecidablePairwise l

/-- The read model a voucher endpoint returns for one voucher: its row, its
expense list, and the derived `expenseCount`. -/
structure VoucherView where
  voucher : Voucher
  expenses : List Expense
  expenseCount : Nat
deriving DecidableEq, Repr

/-- `SupabaseStorage.getVoucherById` (`src/unnamed/part_003`, lines 159-195):
ownership-filtered voucher lookup, then the voucher's expenses ordered by
`desc(expenses.datetime)`, with `expenseCount: expensesWithAliases.length`.
Read-only: it takes the store and returns a view without producing a new
store. -/
def getVoucherById (db : Db) (vid uid : String) : Option VoucherView :=
  (db.vouchers.find? (fun v => v.id == vid && v.user_id == uid)).map fun v =>
    let es := sortDescBy (fun e => e.datetime) (linkedExpenses db vid)
    { voucher := v, expenses := es, expenseCount := es.length }

/-- `GET /api/vouchers` (`src/server/routes.ts`, lines 200-317): vouchers of
the caller ordered by `created_at` descending, each carrying its embedded
`expenses (*)` — an embedded select with NO order clause, so the expenses
come back in store order — and `expenseCount: voucher.expenses?.length || 0`.
Read-only. -/
def getVouchersRoute (db : Db) (uid : String) : List VoucherView :=
  (sortDescBy (fun v => v.created_at)
      (db.vouchers.filter (fun v => v.user_id == uid))).map fun v =>
    { voucher := v, expenses := linkedExpenses db v.id,
      expenseCount := (linkedExpenses db v.id).length }

/-! ## Helper lemmas -/

theorem sumAmounts_foldl_init (es : List Expense) (a : Int) :
    es.foldl (fun s e => s + e.amount) a = a + sumAmounts es := by
  induction es generalizing a with
  | nil => simp [sumAmounts]
  | cons e es ih =>
    show es.foldl (fun s e => s + e.amount) (a + e.amount) =
      a + sumAmounts (e :: es)
    rw [ih]
    have h2 : sumAmounts (e :: es) = (0 + e.amount) + sumAmounts es := by
      rw [sumAmounts, List.foldl_cons, ih]
    rw [h2]
    ring

theorem sumAmounts_cons (e : Expense) (es : List Expense) :
    sumAmounts (e :: es) = e.amount + sumAmounts es := by
  rw [sumAmounts, List.foldl_cons, sumAmounts_foldl_init]
  ring

theorem sumAmounts_append_single (es : List Expense) (e : Expense) :
    sumAmounts (es ++ [e]) = sumAmounts es + e.amount := by
  rw [sumAmounts, List.foldl_append]
  show List.foldl (fun s x => s + x.amount) 0 es + e.amount =
    sumAmounts es + e.amount
  rw [sumAmounts]

theorem insertDescBy_perm {α : Type} (key : α → Int) (a : α) (l : List α) :
    List.Perm (insertDescBy key a l) (a :: l) := by
  induction l with
  | nil => exact List.Perm.refl _
  | cons x xs ih =>
    rw [insertDescBy]
    split
    · exact List.Perm.refl _
    · exact (List.Perm.cons x ih).trans (List.Perm.swap a x xs)

theorem sortDescBy_perm {α : Type} (key : α → Int) (l : List α) :
    List.Perm (sortDescBy key l) l := by
  induction l with
  | nil => exact List.Perm.refl _
  | cons x xs ih =>
    rw [sortDescBy]
    exact (insertDescBy_perm key x (sortDescBy key xs)).trans (List.Perm.cons x ih)

theorem sortedDescBy_insert {α : Type} (key : α → Int) (a : α) {l : List α}
    (h : SortedDescBy key l) : SortedDescBy key (insertDescBy key a l) := by
  induction l with
  | nil => simp [insertDescBy, SortedDescBy]
  | cons x xs ih =>
    rw [SortedDescBy, List.pairwise_cons] at h
    obtain ⟨hx, hxs⟩ := h
    rw [insertDescBy]
    split
    · rename_i hle
      rw [SortedDescBy, List.pairwise_cons]
      refine ⟨?_, List.Pairwise.cons hx hxs⟩
      intro b hb
      rcases List.mem_cons.mp hb with rfl | hbxs
      · exact hle
      · exact le_trans (hx b hbxs) hle
    · rename_i hgt
      rw [SortedDescBy, List.pairwise_cons]
      refine ⟨?_, ih hxs⟩
      intro b hb
      have hb' : b ∈ a :: xs := (insertDescBy_perm key a xs).mem_iff.mp hb
      rcases List.mem_cons.mp hb' with rfl | hbxs
      · exact (not_le.mp hgt).le
      · exact hx b hbxs

theorem sortDescBy_sorted {α : Type} (key : α → Int) (l : List α) :
    SortedDescBy key (sortDescBy key l) := by
  induction l with
  | nil => exact List.Pairwise.nil
  | cons x xs ih =>
    rw [sortDescBy]
    exact sortedDescBy_insert key x ih

/-- Writing a voucher total does not change the expense table. -/
theorem linkedExpenses_setVoucherTotalOnly (db : Db) (vid : String) (t : Int)
    (vid' : String) :
    linkedExpenses (setVoucherTotalOnly db vid t) vid' = linkedExpenses db vid' :=
  rfl

/-- Appending an expense row linked to `vid` appends it to the voucher's
linked-expense list. -/
theorem linkedExpenses_append_self (db : Db) (e : Expense) {vid : String}
    (h : e.voucher_id = vid) :
    linkedExpenses { db with expenses := db.expenses ++ [e] } vid =
      linkedExpenses db vid ++ [e] := by
  simp [linkedExpenses, List.filter_append, h]

/-- A handler writing a voucher's recomputed total makes every row carrying
the mutated voucher id hold exactly the sum of the expenses linked to that
voucher in the resulting store. -/
theorem total_after_routeRecompute (db : Db) (vid : String) :
    ∀ w ∈ (routeRecomputeTotal db vid).vouchers, w.id = vid →
      w.total_amount = sumAmounts (linkedExpenses (routeRecomputeTotal db vid) vid) := by
  intro w hw hid
  rw [routeRecomputeTotal, linkedExpenses_setVoucherTotalOnly]
  rw [routeRecomputeTotal, setVoucherTotalOnly] at hw
  rcases List.mem_map.mp hw with ⟨orig, _, rfl⟩
  by_cases h : (orig.id == vid) = true
  · rw [if_pos h]
  · rw [if_neg h] at hid
    exact absurd (beq_iff_eq.mpr hid) h

/-! ## Concrete store fixtures for the counterexamples and witnesses -/

/-- A concrete voucher row used by the concrete instances below. -/
def sampleVoucher (id uid : String) (st : VStatus) (total updAt : Int) : Voucher :=
  { id := id, user_id := uid, name := "Trip", department := "Operations",
    description := none, start_date := 0, end_date := 86400000,
    status := st, total_amount := total, created_at := 1, updated_at := updAt }

/-- A concrete expense row used by the concrete instances below. -/
def sampleExpense (id vid : String) (amount dt : Int) : Expense :=
  { id := id, voucher_id := vid, description := "taxi",
    transport_type := "cab", amount := amount, distance := none,
    datetime := dt, notes := none, created_at := 2 }

/-! ## Claim C8 — voucher date-range boundary -/

/-- Claim C8 states that creating a voucher with `start_date` equal to
`end_date` (a single-day trip) is accepted.  Counterexample: the server's
check is `if (startDate >= endDate)` (`src/server/routes.ts`, line 359), so a
creation with equal, perfectly valid dates and all required fields present is
rejected with 400 "Invalid date range" and nothing is inserted. -/
theorem C8_counterexample :
    postVoucherRoute (Db.mk [] []) "u1"
      { name := "Trip", department := "Operations", description := none,
        start_date := some 1700000000000, end_date := some 1700000000000 }
      "v1" 5 = (ApiStatus.badRequest, Db.mk [] []) := by
  decide

/-- Claim C8, amended: creating a voucher with `start_date` strictly after
`end_date` fails validation, but so does `start_date` equal to `end_date` —
the server accepts only strictly increasing date ranges (and then inserts a
draft voucher with total 0), while the client-side form schema accepts equal
dates, a client/server inconsistency. -/
theorem C8_theorem (db : Db) (uid : String) (b : VoucherCreateBody)
    (fid : String) (now s e : Int)
    (hn : b.name ≠ "") (hd : b.department ≠ "")
    (hs : b.start_date = some s) (he : b.end_date = some e) :
    (s > e → postVoucherRoute db uid b fid now = (ApiStatus.badRequest, db)) ∧
    (s = e → postVoucherRoute db uid b fid now = (ApiStatus.badRequest, db)) ∧
    (s < e → postVoucherRoute db uid b fid now =
      (ApiStatus.ok,
        { db with
          vouchers := db.vouchers ++
            [{ id := fid, user_id := uid, name := b.name,
               department := b.department, description := b.description,
               start_date := s, end_date := e, status := VStatus.draft,
               total_amount := 0, created_at := now, updated_at := now }] })) ∧
    clientVoucherDatesOk s s = true := by
  have hn' : (b.name == "") = false := beq_eq_false_iff_ne.mpr hn
  have hd' : (b.department == "") = false := beq_eq_false_iff_ne.mpr hd
  refine ⟨?_, ?_, ?_, by simp [clientVoucherDatesOk]⟩
  · intro hgt
    rw [postVoucherRoute]
    simp [hn', hd', hs, he, le_of_lt hgt]
  · intro heq
    rw [postVoucherRoute]
    simp [hn', hd', hs, he, le_of_eq heq.symm]
  · intro hlt
    rw [postVoucherRoute]
    simp [hn', hd', hs, he, not_le.mpr hlt]

/-- Concrete instance of the amended C8: rejection at `s > e`, rejection at
`s = e`, acceptance at `s < e`, client schema accepting equality. -/
theorem C8_witness :
    postVoucherRoute (Db.mk [] []) "u1"
      { name := "Trip", department := "Operations", description := none,
        start_date := some 10, end_date := some 5 } "v1" 7 =
      (ApiStatus.badRequest, Db.mk [] []) ∧
    postVoucherRoute (Db.mk [] []) "u1"
      { name := "Trip", department := "Operations", description := none,
        start_date := some 10, end_date := some 10 } "v1" 7 =
      (ApiStatus.badRequest, Db.mk [] []) ∧
    postVoucherRoute (Db.mk [] []) "u1"
      { name := "Trip", department := "Operations", description := none,
        start_date := some 5, end_date := some 10 } "v1" 7 =
      (ApiStatus.ok,
        { Db.mk [] [] with
          vouchers := (Db.mk [] []).vouchers ++
            [{ id := "v1", user_id := "u1", name := "Trip",
               department := "Operations", description := none,
               start_date := 5, end_date := 10, status := VStatus.draft,
               total_amount := 0, created_at := 7, updated_at := 7 }] }) ∧
    clientVoucherDatesOk 10 10 = true := by
  refine ⟨?_, ?_, ?_, ?_⟩
  · exact (C8_theorem (Db.mk [] []) "u1" _ "v1" 7 10 5
      (by decide) (by decide) rfl rfl).1 (by decide)
  · exact (C8_theorem (Db.mk [] []) "u1" _ "v1" 7 10 10
      (by decide) (by decide) rfl rfl).2.1 rfl
  · exact (C8_theorem (Db.mk [] []) "u1" _ "v1" 7 5 10
      (by decide) (by decide) rfl rfl).2.2.1 (by decide)
  · exact (C8_theorem (Db.mk [] []) "u1"
      { name := "Trip", department := "Operations", description := none,
        start_date := some 10, end_date := some 10 } "v1" 7 10 10
      (by decide) (by decide) rfl rfl).2.2.2

/-! ## Claim C4 — cross-tenant access signalling -/

/-- Store for the C4 instances: voucher `v1` owned by `uA` with one expense. -/
def c4db : Db :=
  Db.mk [sampleVoucher "v1" "uA" VStatus.draft 10000 5]
    [sampleExpense "e1" "v1" 10000 10]

/-- Claim C4 states that every read or write attempt by a caller on another
user's voucher — including expense-scoped operations resolved through it —
fails with NotFound, never Forbidden.  Counterexample: `uB` deleting expense
`e1`, which belongs to `uA`'s voucher, gets 403 Forbidden
(`src/unnamed/part_005`, lines 706-709), not NotFound. -/
theorem C4_counterexample :
    deleteExpenseRoute c4db "uB" "e1" noFaults = (ApiStatus.forbidden, c4db) ∧
    ApiStatus.forbidden ≠ ApiStatus.notFound := by
  decide

/-- Claim C4, amended: voucher-level deletion does fail with NotFound
identically for a missing voucher and for another user's voucher; but the
expense-scoped deletion resolves the expense first and fails with Forbidden
(403) when the parent voucher belongs to another user, while a missing
expense surfaces as a 500 store error — so cross-tenant access is
distinguishable from non-existence on that endpoint, and is not signalled as
NotFound. -/
theorem C4_theorem :
    (∀ db uid vid,
      db.vouchers.find? (fun v => v.id == vid && v.user_id == uid) = none →
      deleteVoucherRoute db uid vid = (ApiStatus.notFound, db)) ∧
    (∀ db uid eid f e v,
      db.expenses.find? (fun x => x.id == eid) = some e →
      db.vouchers.find? (fun w => w.id == e.voucher_id) = some v →
      v.user_id ≠ uid →
      deleteExpenseRoute db uid eid f = (ApiStatus.forbidden, db)) ∧
    (∀ db uid eid f,
      db.expenses.find? (fun x => x.id == eid) = none →
      deleteExpenseRoute db uid eid f = (ApiStatus.serverError, db)) := by
  refine ⟨?_, ?_, ?_⟩
  · intro db uid vid h
    rw [deleteVoucherRoute, h]
  · intro db uid eid f e v he hv hne
    simp only [deleteExpenseRoute, he, hv]
    rw [if_pos (bne_iff_ne.mpr hne)]
  · intro db uid eid f h
    rw [deleteExpenseRoute, h]

/-- Concrete instance of the amended C4: a missing voucher and a foreign
voucher both yield 404 on voucher deletion; a foreign expense yields 403 and
a missing expense 500 on expense deletion. -/
theorem C4_witness :
    deleteVoucherRoute c4db "uB" "v1" = (ApiStatus.notFound, c4db) ∧
    deleteVoucherRoute c4db "uA" "v9" = (ApiStatus.notFound, c4db) ∧
    deleteExpenseRoute c4db "uB" "e1" noFaults = (ApiStatus.forbidden, c4db) ∧
    deleteExpenseRoute c4db "uA" "e9" noFaults = (ApiStatus.serverError, c4db) := by
  refine ⟨?_, ?_, ?_, ?_⟩
  · exact C4_theorem.1 c4db "uB" "v1" (by decide)
  · exact C4_theorem.1 c4db "uA" "v9" (by decide)
  · exact C4_theorem.2.1 c4db "uB" "e1" noFaults
      (sampleExpense "e1" "v1" 10000 10)
      (sampleVoucher "v1" "uA" VStatus.draft 10000 5)
      (by decide) (by decide) (by decide)
  · exact C4_theorem.2.2 c4db "uA" "e9" noFaults (by decide)

/-! ## Claim C5 — voucher status transitions -/

/-- Store for the C5 instances: a submitted voucher owned by `u1`. -/
def c5db : Db :=
  Db.mk [sampleVoucher "v1" "u1" VStatus.submitted 14000 5] []

/-- Claim C5 states that submitted is terminal and any transition other than
the one-shot draft→submitted fails with InvalidTransition.  Counterexample:
the owner PATCHes a submitted voucher back to draft and the server applies it
and answers 200 — the voucher is stored as draft again. -/
theorem C5_counterexample :
    (patchVoucherRoute c5db "u1" "v1" ⟨some VStatus.draft⟩).1 = ApiStatus.ok ∧
    voucherStatus (patchVoucherRoute c5db "u1" "v1" ⟨some VStatus.draft⟩).2 "v1" =
      some VStatus.draft := by
  decide

/-- Claim C5, amended: the PATCH endpoint applies whatever status the owner
supplies, with no state-machine validation: draft→submitted, submitted→draft
and re-submission all succeed identically, and no InvalidTransition failure
exists in the repository (the draft→submitted-once discipline is only a
client-side convention). -/
theorem C5_theorem (db : Db) (uid vid : String) (s : VStatus) (v : Voucher)
    (hv : db.vouchers.find? (fun w => w.id == vid && w.user_id == uid) = some v) :
    (patchVoucherRoute db uid vid ⟨some s⟩).1 = ApiStatus.ok ∧
    ∀ w ∈ (patchVoucherRoute db uid vid ⟨some s⟩).2.vouchers,
      w.id = vid → w.user_id = uid → w.status = s := by
  rw [patchVoucherRoute, hv]
  refine ⟨rfl, ?_⟩
  intro w hw hid huid
  rcases List.mem_map.mp hw with ⟨orig, _, rfl⟩
  by_cases h : (orig.id == vid && orig.user_id == uid) = true
  · rw [if_pos h] at hid huid ⊢
    rfl
  · rw [if_neg h] at hid huid
    exact absurd (by rw [beq_iff_eq.mpr hid, beq_iff_eq.mpr huid, Bool.and_self]) h

/-- Concrete instance of the amended C5: the submitted→draft patch succeeds
and the patched row carries status draft. -/
theorem C5_witness :
    (patchVoucherRoute c5db "u1" "v1" ⟨some VStatus.draft⟩).1 = ApiStatus.ok ∧
    (sampleVoucher "v1" "u1" VStatus.draft 14000 5).status = VStatus.draft := by
  have h := C5_theorem c5db "u1" "v1" VStatus.draft
    (sampleVoucher "v1" "u1" VStatus.submitted 14000 5) (by decide)
  exact ⟨h.1, h.2 (sampleVoucher "v1" "u1" VStatus.draft 14000 5)
    (by decide) (by decide) (by decide)⟩

/-! ## Claim C3 — submitted-voucher immutability -/

/-- Store for the C3 instances: a SUBMITTED voucher owned by `u1` with one
expense, total 140.00. -/
def c3db : Db :=
  Db.mk [sampleVoucher "v1" "u1" VStatus.submitted 14000 5]
    [sampleExpense "e1" "v1" 14000 10]

/-- A valid expense body used by the C3 instances. -/
def c3body : ExpenseInput :=
  { description := some "lunch cab", transport_type := "cab",
    amount := some 25000, distance := none, datetime := some 20,
    notes := none }

/-- Claim C3 states that any expense create/update/delete against a
submitted voucher fails with VoucherImmutable and leaves the total and the
expense set unchanged.  Counterexample: creating an expense under the
submitted voucher `v1` succeeds with 200, the expense set grows, and the
stored total changes from 140.00 to 390.00 — no handler ever reads
`voucher.status`. -/
theorem C3_counterexample :
    voucherStatus c3db "v1" = some VStatus.submitted ∧
    (postVoucherExpense c3db "u1" "v1" c3body "e2" 99 noFaults).1 = ApiStatus.ok ∧
    (postVoucherExpense c3db "u1" "v1" c3body "e2" 99 noFaults).2.expenses =
      c3db.expenses ++ [mkStoredExpense "v1" c3body "e2" 99] ∧
    voucherTotal (postVoucherExpense c3db "u1" "v1" c3body "e2" 99 noFaults).2 "v1" =
      some 39000 ∧
    voucherTotal c3db "v1" = some 14000 := by
  decide

/-- Claim C3, amended: no immutability rule exists — neither expense create
nor expense delete consults the voucher's status; both succeed on a
submitted voucher exactly as on a draft one, mutate the expense set and
recompute the total; no VoucherImmutable failure exists in the repository. -/
theorem C3_theorem :
    (∀ db uid vid b fid now v,
      db.vouchers.find? (fun w => w.id == vid && w.user_id == uid) = some v →
      v.status = VStatus.submitted →
      dbExpenseInsertOk b = true →
      (postVoucherExpense db uid vid b fid now noFaults).1 = ApiStatus.ok ∧
      (postVoucherExpense db uid vid b fid now noFaults).2.expenses =
        db.expenses ++ [mkStoredExpense vid b fid now]) ∧
    (∀ db uid eid f e v,
      db.expenses.find? (fun x => x.id == eid) = some e →
      db.vouchers.find? (fun w => w.id == e.voucher_id) = some v →
      v.user_id = uid →
      v.status = VStatus.submitted →
      (deleteExpenseRoute db uid eid f).1 = ApiStatus.ok ∧
      (deleteExpenseRoute db uid eid f).2.expenses =
        db.expenses.filter (fun x => !(x.id == eid))) := by
  constructor
  · intro db uid vid b fid now v hv _ hok
    simp only [postVoucherExpense, hv, hok, if_true]
    constructor
    · rfl
    · rfl
  · intro db uid eid f e v he hv huid _
    have hne : (v.user_id != uid) = false := by
      rw [huid, bne_self_eq_false]
    simp only [deleteExpenseRoute, he, hv, hne, Bool.false_eq_true, if_false]
    rcases f with ⟨fr, fw⟩
    cases fr <;> cases fw <;> simp [routeRecomputeTotal, setVoucherTotalOnly]

/-- Concrete instance of the amended C3: expense create and expense delete
both succeed under the submitted voucher `v1`. -/
theorem C3_witness :
    ((postVoucherExpense c3db "u1" "v1" c3body "e2" 99 noFaults).1 = ApiStatus.ok ∧
     (postVoucherExpense c3db "u1" "v1" c3body "e2" 99 noFaults).2.expenses =
       c3db.expenses ++ [mkStoredExpense "v1" c3body "e2" 99]) ∧
    ((deleteExpenseRoute c3db "u1" "e1" noFaults).1 = ApiStatus.ok ∧
     (deleteExpenseRoute c3db "u1" "e1" noFaults).2.expenses =
       c3db.expenses.filter (fun x => !(x.id == "e1"))) := by
  constructor
  · exact C3_theorem.1 c3db "u1" "v1" c3body "e2" 99
      (sampleVoucher "v1" "u1" VStatus.submitted 14000 5)
      (by decide) (by decide) (by decide)
  · exact C3_theorem.2 c3db "u1" "e1" noFaults
      (sampleExpense "e1" "v1" 14000 10)
      (sampleVoucher "v1" "u1" VStatus.submitted 14000 5)
      (by decide) (by decide) (by decide) (by decide)

/-! ## Claim C2 — server-side fuel derivation -/

/-- Store for the C2 instances: a draft voucher owned by `u1`, no expenses. -/
def c2db : Db :=
  Db.mk [sampleVoucher "v1" "u1" VStatus.draft 0 5] []

/-- A fuel expense body with distance 40 km and a client-supplied amount of
999.00 — under claim C2 the server should store 40 × 3.5 = 140.00 instead. -/
def c2body : ExpenseInput :=
  { description := some "fuel run", transport_type := "fuel",
    amount := some 99900, distance := some 40, datetime := some 20,
    notes := none }

/-- Claim C2 states that for a fuel expense with a distance the server
derives the amount as round(D × 3.5, 2) and ignores any client-supplied
amount.  Counterexample: a fuel expense with distance 40 and client amount
999.00 is stored with amount 999.00, not 140.00 — the server has no fuel
logic at all. -/
theorem C2_counterexample :
    (postVoucherExpense c2db "u1" "v1" c2body "e1" 7 noFaults).1 = ApiStatus.ok ∧
    (linkedExpenses (postVoucherExpense c2db "u1" "v1" c2body "e1" 7 noFaults).2 "v1").map
      (fun e => e.amount) = [99900] ∧
    clientFuelAmount 40 = 14000 ∧
    (99900 : Int) ≠ 14000 := by
  decide

/-- Claim C2, amended: the server stores the client-supplied amount verbatim
for every transport type, fuel included — the derivation amount = D × 3.5
(exactly D × 350 cents) exists only in the client form, which fills the
amount field from the distance before submitting; a client bypassing the form
stores any amount it likes. -/
theorem C2_theorem (db : Db) (uid vid : String) (b : ExpenseInput)
    (fid : String) (now : Int) (v : Voucher)
    (hv : db.vouchers.find? (fun w => w.id == vid && w.user_id == uid) = some v)
    (hok : dbExpenseInsertOk b = true) :
    (postVoucherExpense db uid vid b fid now noFaults).2.expenses =
      db.expenses ++ [mkStoredExpense vid b fid now] ∧
    (mkStoredExpense vid b fid now).amount = b.amount.getD 0 ∧
    (∀ km : Int, clientFuelAmount km = km * FUEL_RATE_CENTS) := by
  refine ⟨?_, rfl, fun km => rfl⟩
  simp only [postVoucherExpense, hv, hok, if_true]
  rfl

/-- Concrete instance of the amended C2: the fuel body with client amount
999.00 is stored verbatim, and the client derivation yields 40 × 350 cents. -/
theorem C2_witness :
    (postVoucherExpense c2db "u1" "v1" c2body "e1" 7 noFaults).2.expenses =
      c2db.expenses ++ [mkStoredExpense "v1" c2body "e1" 7] ∧
    (mkStoredExpense "v1" c2body "e1" 7).amount = c2body.amount.getD 0 ∧
    clientFuelAmount 40 = 40 * FUEL_RATE_CENTS := by
  have h := C2_theorem c2db "u1" "v1" c2body "e1" 7
    (sampleVoucher "v1" "u1" VStatus.draft 0 5) (by decide) (by decide)
  exact ⟨h.1, h.2.1, h.2.2 40⟩

/-! ## Claim C6 — atomicity of expense write and total recompute -/

/-- Store for the C6 instances: a draft voucher owned by `u1` with total 0,
no expenses. -/
def c6db : Db :=
  Db.mk [sampleVoucher "v1" "u1" VStatus.draft 0 5] []

/-- A valid expense body of 250.00 used by the C6 instances. -/
def c6body : ExpenseInput :=
  { description := some "cab to airport", transport_type := "cab",
    amount := some 25000, distance := none, datetime := some 20,
    notes := none }

/-- Claim C6 states the expense write and the total recompute form one atomic
unit: either both persist or neither.  Counterexample: with the
expense-re-read step failing after a successful insert, the handler answers
200, the expense is persisted, and the stored total stays 0 while the linked
expenses sum to 250.00 — exactly the forbidden partial effect. -/
theorem C6_counterexample :
    postVoucherExpense c6db "u1" "v1" c6body "e1" 3 ⟨true, false⟩ =
      (ApiStatus.ok,
        { c6db with expenses := c6db.expenses ++ [mkStoredExpense "v1" c6body "e1" 3] }) ∧
    voucherTotal (postVoucherExpense c6db "u1" "v1" c6body "e1" 3 ⟨true, false⟩).2 "v1" =
      some 0 ∧
    sumAmounts (linkedExpenses (postVoucherExpense c6db "u1" "v1" c6body "e1" 3 ⟨true, false⟩).2 "v1") =
      25000 ∧
    (0 : Int) ≠ 25000 := by
  decide

/-- Claim C6, amended: the expense insert and the total recompute are two
independent store calls with no shared transaction; if the recompute's
expense re-read fails, or the total write fails, after a successful insert,
the insert persists, every voucher row (hence the stale total) is left
unchanged, and the operation still reports success — the failure is ignored,
not rolled back. -/
theorem C6_theorem (db : Db) (uid vid : String) (b : ExpenseInput)
    (fid : String) (now : Int) (v : Voucher)
    (hv : db.vouchers.find? (fun w => w.id == vid && w.user_id == uid) = some v)
    (hok : dbExpenseInsertOk b = true) :
    (∀ fw : Bool, postVoucherExpense db uid vid b fid now ⟨true, fw⟩ =
      (ApiStatus.ok,
        { db with expenses := db.expenses ++ [mkStoredExpense vid b fid now] })) ∧
    postVoucherExpense db uid vid b fid now ⟨false, true⟩ =
      (ApiStatus.ok,
        { db with expenses := db.expenses ++ [mkStoredExpense vid b fid now] }) := by
  constructor
  · intro fw
    simp only [postVoucherExpense, hv, hok, if_true]
  · simp only [postVoucherExpense, hv, hok, if_true, Bool.false_eq_true, if_false]

/-- Concrete instance of the amended C6: both failure modes persist the
insert, keep the voucher rows unchanged, and answer 200. -/
theorem C6_witness :
    postVoucherExpense c6db "u1" "v1" c6body "e1" 3 ⟨true, false⟩ =
      (ApiStatus.ok,
        { c6db with expenses := c6db.expenses ++ [mkStoredExpense "v1" c6body "e1" 3] }) ∧
    postVoucherExpense c6db "u1" "v1" c6body "e1" 3 ⟨false, true⟩ =
      (ApiStatus.ok,
        { c6db with expenses := c6db.expenses ++ [mkStoredExpense "v1" c6body "e1" 3] }) := by
  have h := C6_theorem c6db "u1" "v1" c6body "e1" 3
    (sampleVoucher "v1" "u1" VStatus.draft 0 5) (by decide) (by decide)
  exact ⟨h.1 false, h.2⟩

/-! ## Claim C1 — total/expense-set consistency -/

/-- Store for the C1 instances: a draft voucher owned by `u1` with two
expenses of 100.00 and 150.00 and a correct stored total of 250.00. -/
def c1db : Db :=
  Db.mk [sampleVoucher "v1" "u1" VStatus.draft 25000 5]
    [sampleExpense "e1" "v1" 10000 10, sampleExpense "e2" "v1" 15000 20]

/-- A valid expense body of 250.00 used by the C1 instances. -/
def c1body : ExpenseInput :=
  { description := some "train ticket", transport_type := "train",
    amount := some 25000, distance := none, datetime := some 30,
    notes := none }

/-- Claim C1 states that after ANY successful expense create or delete the
stored total equals the sum of the currently linked expenses, the recompute
running synchronously inside the same logical operation.  Counterexample: the
recompute is a separate, conditional step — when the expense re-read fails
after the delete succeeded, the endpoint still answers 200 success, the
expense is gone, and the stored total remains 250.00 while the remaining
expenses sum to 150.00. -/
theorem C1_counterexample :
    (deleteExpenseRoute c1db "u1" "e1" ⟨true, false⟩).1 = ApiStatus.ok ∧
    linkedExpenses (deleteExpenseRoute c1db "u1" "e1" ⟨true, false⟩).2 "v1" =
      [sampleExpense "e2" "v1" 15000 20] ∧
    voucherTotal (deleteExpenseRoute c1db "u1" "e1" ⟨true, false⟩).2 "v1" =
      some 25000 ∧
    sumAmounts [sampleExpense "e2" "v1" 15000 20] = 15000 ∧
    (25000 : Int) ≠ 15000 := by
  decide

/-- Claim C1, amended: when every store step of the operation succeeds, an
expense create or delete does leave every row of the mutated voucher holding
exactly the sum of its then-linked expenses, recomputed synchronously in the
same handler; but the recompute is conditional — if the expense re-read step
fails, the handler still reports success and leaves all voucher rows (hence
a stale total) unchanged. -/
theorem C1_theorem :
    (∀ db uid vid b fid now v,
      db.vouchers.find? (fun w => w.id == vid && w.user_id == uid) = some v →
      dbExpenseInsertOk b = true →
      (postVoucherExpense db uid vid b fid now noFaults).1 = ApiStatus.ok ∧
      ∀ w ∈ (postVoucherExpense db uid vid b fid now noFaults).2.vouchers,
        w.id = vid →
        w.total_amount =
          sumAmounts (linkedExpenses (postVoucherExpense db uid vid b fid now noFaults).2 vid)) ∧
    (∀ db uid eid e v,
      db.expenses.find? (fun x => x.id == eid) = some e →
      db.vouchers.find? (fun w => w.id == e.voucher_id) = some v →
      v.user_id = uid →
      (deleteExpenseRoute db uid eid noFaults).1 = ApiStatus.ok ∧
      ∀ w ∈ (deleteExpenseRoute db uid eid noFaults).2.vouchers,
        w.id = e.voucher_id →
        w.total_amount =
          sumAmounts (linkedExpenses (deleteExpenseRoute db uid eid noFaults).2 e.voucher_id)) ∧
    (∀ db uid vid b fid now v,
      db.vouchers.find? (fun w => w.id == vid && w.user_id == uid) = some v →
      dbExpenseInsertOk b = true →
      (postVoucherExpense db uid vid b fid now ⟨true, false⟩).1 = ApiStatus.ok ∧
      (postVoucherExpense db uid vid b fid now ⟨true, false⟩).2.vouchers = db.vouchers) := by
  refine ⟨?_, ?_, ?_⟩
  · intro db uid vid b fid now v hv hok
    have hred : postVoucherExpense db uid vid b fid now noFaults =
        (ApiStatus.ok, routeRecomputeTotal
          { db with expenses := db.expenses ++ [mkStoredExpense vid b fid now] } vid) := by
      simp only [postVoucherExpense, hv, hok, if_true]
      rfl
    rw [hred]
    exact ⟨rfl, total_after_routeRecompute _ vid⟩
  · intro db uid eid e v he hv huid
    have hne : (v.user_id != uid) = false := by rw [huid, bne_self_eq_false]
    have hred : deleteExpenseRoute db uid eid noFaults =
        (ApiStatus.ok, routeRecomputeTotal
          { db with expenses := db.expenses.filter (fun x => !(x.id == eid)) } e.voucher_id) := by
      simp only [deleteExpenseRoute, he, hv, hne, Bool.false_eq_true, if_false]
      rfl
    rw [hred]
    exact ⟨rfl, total_after_routeRecompute _ e.voucher_id⟩
  · intro db uid vid b fid now v hv hok
    have hred : postVoucherExpense db uid vid b fid now ⟨true, false⟩ =
        (ApiStatus.ok,
          { db with expenses := db.expenses ++ [mkStoredExpense vid b fid now] }) := by
      simp only [postVoucherExpense, hv, hok, if_true]
    rw [hred]
    exact ⟨rfl, rfl⟩

/-- Concrete instance of the amended C1: the fully-successful create stores
total 500.00 = 100 + 150 + 250; the fully-successful delete of `e1` stores
total 150.00; the read-fault create answers 200 with vouchers unchanged. -/
theorem C1_witness :
    (postVoucherExpense c1db "u1" "v1" c1body "e3" 99 noFaults).1 = ApiStatus.ok ∧
    (sampleVoucher "v1" "u1" VStatus.draft 50000 5).total_amount =
      sumAmounts (linkedExpenses (postVoucherExpense c1db "u1" "v1" c1body "e3" 99 noFaults).2 "v1") ∧
    (deleteExpenseRoute c1db "u1" "e1" noFaults).1 = ApiStatus.ok ∧
    (sampleVoucher "v1" "u1" VStatus.draft 15000 5).total_amount =
      sumAmounts (linkedExpenses (deleteExpenseRoute c1db "u1" "e1" noFaults).2 "v1") ∧
    (postVoucherExpense c1db "u1" "v1" c1body "e3" 99 ⟨true, false⟩).1 = ApiStatus.ok ∧
    (postVoucherExpense c1db "u1" "v1" c1body "e3" 99 ⟨true, false⟩).2.vouchers =
      c1db.vouchers := by
  have h1 := C1_theorem.1 c1db "u1" "v1" c1body "e3" 99
    (sampleVoucher "v1" "u1" VStatus.draft 25000 5) (by decide) (by decide)
  have h2 := C1_theorem.2.1 c1db "u1" "e1"
    (sampleExpense "e1" "v1" 10000 10)
    (sampleVoucher "v1" "u1" VStatus.draft 25000 5)
    (by decide) (by decide) (by decide)
  have h3 := C1_theorem.2.2 c1db "u1" "v1" c1body "e3" 99
    (sampleVoucher "v1" "u1" VStatus.draft 25000 5) (by decide) (by decide)
  exact ⟨h1.1,
    h1.2 (sampleVoucher "v1" "u1" VStatus.draft 50000 5) (by decide) (by decide),
    h2.1,
    h2.2 (sampleVoucher "v1" "u1" VStatus.draft 15000 5) (by decide) (by decide),
    h3.1, h3.2⟩

/-! ## Claim C7 — the recompute's arithmetic and timestamp write -/

/-- Store for the C7 instances: a voucher with stale total 0 and
`updated_at` 50, and one linked expense of 100.00. -/
def c7db : Db :=
  Db.mk [sampleVoucher "v1" "u1" VStatus.draft 0 50]
    [sampleExpense "e1" "v1" 10000 10]

/-- Claim C7 states that the recompute writes the summed total PLUS an
updated timestamp back to the voucher row.  Counterexample: the recompute
inlined in the live route handlers updates only `total_amount` — after it
runs, the total has changed to 100.00 but `updated_at` still holds its old
value 50; the handler takes no timestamp at all. -/
theorem C7_counterexample :
    voucherUpdatedAt c7db "v1" = some 50 ∧
    voucherTotal (routeRecomputeTotal c7db "v1") "v1" = some 10000 ∧
    voucherUpdatedAt (routeRecomputeTotal c7db "v1") "v1" = some 50 := by
  decide

/-- Claim C7, amended: the storage layer's `updateVoucherTotal` matches the
claim — it sums the linked amounts with exact decimal (SQL `SUM`) arithmetic
and writes the total plus a fresh `updated_at` — but it is not called by the
live routes; the recompute actually inlined in the route handlers sums the
parsed amounts and writes only `total_amount`, leaving every row's
`updated_at` unchanged.  Both recomputes are idempotent, so repeated
add/remove cycles produce no drift on the cent grid. -/
theorem C7_theorem :
    (∀ db vid now, ∀ w ∈ (updateVoucherTotal db vid now).vouchers, w.id = vid →
      w.total_amount = sumAmounts (linkedExpenses db vid) ∧ w.updated_at = now) ∧
    (∀ db vid, ∀ w ∈ (routeRecomputeTotal db vid).vouchers, w.id = vid →
      w.total_amount = sumAmounts (linkedExpenses db vid)) ∧
    (∀ db vid, (routeRecomputeTotal db vid).vouchers.map (fun v => v.updated_at) =
      db.vouchers.map (fun v => v.updated_at)) ∧
    (∀ db vid, routeRecomputeTotal (routeRecomputeTotal db vid) vid =
      routeRecomputeTotal db vid) := by
  refine ⟨?_, ?_, ?_, ?_⟩
  · intro db vid now w hw hid
    rw [updateVoucherTotal] at hw
    rcases List.mem_map.mp hw with ⟨orig, _, rfl⟩
    by_cases h : (orig.id == vid) = true
    · rw [if_pos h]
      exact ⟨rfl, rfl⟩
    · rw [if_neg h] at hid
      exact absurd (beq_iff_eq.mpr hid) h
  · intro db vid w hw hid
    exact total_after_routeRecompute db vid w hw hid
  · intro db vid
    rw [routeRecomputeTotal, setVoucherTotalOnly, List.map_map]
    apply List.map_congr_left
    intro a _
    by_cases h : (a.id == vid) = true
    · simp [Function.comp, h]
    · simp [Function.comp, h]
  · intro db vid
    have hlink : linkedExpenses
        (setVoucherTotalOnly db vid (sumAmounts (linkedExpenses db vid))) vid =
        linkedExpenses db vid := rfl
    rw [routeRecomputeTotal, routeRecomputeTotal, hlink]
    simp only [setVoucherTotalOnly, List.map_map]
    congr 1
    apply List.map_congr_left
    intro a _
    by_cases h : (a.id == vid) = true
    · simp [Function.comp, h]
    · simp [Function.comp, h]

/-- Concrete instance of the amended C7: the storage-layer recompute stores
total 100.00 and the fresh timestamp 77; the route-level recompute preserves
all `updated_at` values and is idempotent. -/
theorem C7_witness :
    (sampleVoucher "v1" "u1" VStatus.draft 10000 77).total_amount =
      sumAmounts (linkedExpenses c7db "v1") ∧
    (sampleVoucher "v1" "u1" VStatus.draft 10000 77).updated_at = 77 ∧
    (sampleVoucher "v1" "u1" VStatus.draft 10000 50).total_amount =
      sumAmounts (linkedExpenses c7db "v1") ∧
    (routeRecomputeTotal c7db "v1").vouchers.map (fun v => v.updated_at) =
      c7db.vouchers.map (fun v => v.updated_at) ∧
    routeRecomputeTotal (routeRecomputeTotal c7db "v1") "v1" =
      routeRecomputeTotal c7db "v1" := by
  have h1 := C7_theorem.1 c7db "v1" 77
    (sampleVoucher "v1" "u1" VStatus.draft 10000 77) (by decide) (by decide)
  have h2 := C7_theorem.2.1 c7db "v1"
    (sampleVoucher "v1" "u1" VStatus.draft 10000 50) (by decide) (by decide)
  exact ⟨h1.1, h1.2, h2, C7_theorem.2.2.1 c7db "v1", C7_theorem.2.2.2 c7db "v1"⟩

/-! ## Claim C9 — expense input validation -/

/-- Store for the C9 instances: a draft voucher owned by `u1`, no expenses. -/
def c9db : Db :=
  Db.mk [sampleVoucher "v1" "u1" VStatus.draft 0 5] []

/-- An expense body with an EMPTY description and a NEGATIVE amount — under
claim C9 it must be rejected with ValidationError. -/
def c9body : ExpenseInput :=
  { description := some "", transport_type := "cab",
    amount := some (-500), distance := none, datetime := some 0,
    notes := none }

/-- An expense body with transport type `food` — valid per claim C9's enum,
but absent from the cited schema's CHECK constraint. -/
def c9foodBody : ExpenseInput :=
  { description := some "team lunch", transport_type := "food",
    amount := some 2000, distance := none, datetime := some 0,
    notes := none }

/-- Claim C9 states expense creation fails with ValidationError unless the
description is non-empty and the amount strictly positive, and that no
violating expense is ever stored.  Counterexample: an expense with empty
description and amount −5.00 is accepted with 200 and stored — the route
validates nothing. -/
theorem C9_counterexample :
    (postVoucherExpense c9db "u1" "v1" c9body "e1" 3 noFaults).1 = ApiStatus.ok ∧
    (postVoucherExpense c9db "u1" "v1" c9body "e1" 3 noFaults).2.expenses.map
      (fun e => (e.description, e.amount)) = [("", -500)] ∧
    ¬ (0 : Int) < -500 := by
  decide

/-- Claim C9, amended: the route performs no field validation at all; an
expense insert is rejected only by the store's schema — the `transport_type`
CHECK enum (which does NOT include `food` in the cited schema, so food
expenses are rejected) and the NOT NULL presence of description, amount and
datetime — and such a rejection surfaces as a generic 500 store error, not a
ValidationError; any body passing those schema gates is stored verbatim,
empty descriptions and non-positive amounts included. -/
theorem C9_theorem :
    (∀ db uid vid b fid now v,
      db.vouchers.find? (fun w => w.id == vid && w.user_id == uid) = some v →
      dbExpenseInsertOk b = false →
      postVoucherExpense db uid vid b fid now noFaults = (ApiStatus.serverError, db)) ∧
    (∀ db uid vid b fid now v,
      db.vouchers.find? (fun w => w.id == vid && w.user_id == uid) = some v →
      dbExpenseInsertOk b = true →
      (postVoucherExpense db uid vid b fid now noFaults).1 = ApiStatus.ok ∧
      (postVoucherExpense db uid vid b fid now noFaults).2.expenses =
        db.expenses ++ [mkStoredExpense vid b fid now]) ∧
    transportTypes.contains "food" = false := by
  refine ⟨?_, ?_, by decide⟩
  · intro db uid vid b fid now v hv hok
    simp only [postVoucherExpense, hv, hok, Bool.false_eq_true, if_false]
  · intro db uid vid b fid now v hv hok
    have hred : postVoucherExpense db uid vid b fid now noFaults =
        (ApiStatus.ok, routeRecomputeTotal
          { db with expenses := db.expenses ++ [mkStoredExpense vid b fid now] } vid) := by
      simp only [postVoucherExpense, hv, hok, if_true]
      rfl
    rw [hred]
    exact ⟨rfl, rfl⟩

/-- Concrete instance of the amended C9: the food body is rejected with a 500
store error and nothing stored; the empty-description negative-amount body is
accepted and stored. -/
theorem C9_witness :
    postVoucherExpense c9db "u1" "v1" c9foodBody "e1" 3 noFaults =
      (ApiStatus.serverError, c9db) ∧
    (postVoucherExpense c9db "u1" "v1" c9body "e1" 3 noFaults).1 = ApiStatus.ok ∧
    (postVoucherExpense c9db "u1" "v1" c9body "e1" 3 noFaults).2.expenses =
      c9db.expenses ++ [mkStoredExpense "v1" c9body "e1" 3] ∧
    transportTypes.contains "food" = false := by
  have h1 := C9_theorem.1 c9db "u1" "v1" c9foodBody "e1" 3
    (sampleVoucher "v1" "u1" VStatus.draft 0 5) (by decide) (by decide)
  have h2 := C9_theorem.2.1 c9db "u1" "v1" c9body "e1" 3
    (sampleVoucher "v1" "u1" VStatus.draft 0 5) (by decide) (by decide)
  exact ⟨h1, h2.1, h2.2, C9_theorem.2.2⟩

/-! ## Claim C10 — the voucher read model -/

/-- First expense of the C10 store, inserted first, OLDER datetime. -/
def c10e1 : Expense := sampleExpense "e1" "v1" 10000 10

/-- Second expense of the C10 store, inserted second, NEWER datetime. -/
def c10e2 : Expense := sampleExpense "e2" "v1" 15000 20

/-- Store for the C10 instances: one voucher of `u1` with the two expenses
above in insertion order (oldest first). -/
def c10db : Db :=
  Db.mk [sampleVoucher "v1" "u1" VStatus.draft 25000 5] [c10e1, c10e2]

/-- The view `getVoucherById` produces for `c10db`: expenses sorted
most-recent first. -/
def c10view : VoucherView :=
  { voucher := sampleVoucher "v1" "u1" VStatus.draft 25000 5,
    expenses := [c10e2, c10e1], expenseCount := 2 }

/-- The view the live list-all route produces for `c10db`: expenses in store
order. -/
def c10viewL : VoucherView :=
  { voucher := sampleVoucher "v1" "u1" VStatus.draft 25000 5,
    expenses := [c10e1, c10e2], expenseCount := 2 }

/-- Claim C10 states that the per-voucher grouping of the list-all-vouchers
endpoint returns each voucher's expenses ordered most-recent datetime first.
Counterexample: the live `GET /api/vouchers` embeds the expenses with no
order clause, so the store order comes back — here oldest first, which is
not sorted by descending datetime. -/
theorem C10_counterexample :
    (getVouchersRoute c10db "u1").map (fun w => w.expenses) = [[c10e1, c10e2]] ∧
    ¬ SortedDescBy (fun e => e.datetime) [c10e1, c10e2] := by
  decide

/-- Claim C10, amended: the single-voucher read model (the storage layer's
`getVoucherById`, which no live route calls) does return the voucher's
expenses sorted most-recent datetime first, a permutation of exactly the
linked expenses, with `expenseCount` the length of that list, and an empty
list with count 0 for a voucher with zero expenses; both read models are
read-only and compute `expenseCount` as the list's cardinality, but the live
list-all route returns each voucher's expenses in store order, with no
ordering guarantee. -/
theorem C10_theorem :
    (∀ db vid uid view,
      getVoucherById db vid uid = some view →
      SortedDescBy (fun e => e.datetime) view.expenses ∧
      List.Perm view.expenses (linkedExpenses db vid) ∧
      view.expenseCount = view.expenses.length ∧
      (linkedExpenses db vid = [] → view.expenses = [] ∧ view.expenseCount = 0)) ∧
    (∀ db uid view, view ∈ getVouchersRoute db uid →
      view.expenses = linkedExpenses db view.voucher.id ∧
      view.expenseCount = view.expenses.length) := by
  constructor
  · intro db vid uid view hview
    rw [getVoucherById] at hview
    rcases Option.map_eq_some'.mp hview with ⟨v, _, rfl⟩
    refine ⟨sortDescBy_sorted _ _, sortDescBy_perm _ _, rfl, ?_⟩
    intro hempty
    rw [hempty]
    exact ⟨rfl, rfl⟩
  · intro db uid view hview
    rw [getVouchersRoute] at hview
    rcases List.mem_map.mp hview with ⟨v, _, rfl⟩
    exact ⟨rfl, rfl⟩

/-- Concrete instance of the amended C10: the single-voucher view of `c10db`
is sorted newest-first, is a permutation of the linked expenses, and counts
them; the list-all view keeps store order and counts them. -/
theorem C10_witness :
    SortedDescBy (fun e => e.datetime) c10view.expenses ∧
    List.Perm c10view.expenses (linkedExpenses c10db "v1") ∧
    c10view.expenseCount = c10view.expenses.length ∧
    c10viewL.expenses = linkedExpenses c10db c10viewL.voucher.id ∧
    c10viewL.expenseCount = c10viewL.expenses.length := by
  have h1 := C10_theorem.1 c10db "v1" "u1" c10view (by decide)
  have h2 := C10_theorem.2 c10db "u1" c10viewL (by decide)
  exact ⟨h1.1, h1.2.1, h1.2.2.1, h2.1, h2.2⟩

end ExpenseManager
